import Mathlib

/-!
Shallow embedding of src/main.py (douga-auto-system): a Flask service that
downloads a newly stored video from GCS, watermarks it with ffmpeg, uploads
the result, labels the original with the Video Intelligence API and creates
a draft Shopify product.  Pure data transformations are translated directly
from the source.  The external collaborators (GCS, Secret Manager, Video
Intelligence, Shopify) are abstracted by an environment recording the
outcome of each call, and the side effects attempted by a run are collected
in an explicit trace.
-/

/-- Default project id: os.environ.get with default douga-auto-system
(src/main.py line 19). -/
def PROJECT_ID : String := "douga-auto-system"

/-- src/main.py line 21: bucket holding processed (watermarked) objects. -/
def BUCKET_PROCESSED : String := PROJECT_ID ++ "-processed"

/-- Python list.replace semantics of file_name.replace of the pattern .mp4
by the empty string (src/main.py line 212): delete every non-overlapping
occurrence of the four characters .mp4, scanning left to right. -/
def stripMp4 : List Char → List Char
  | '.' :: 'm' :: 'p' :: '4' :: cs => stripMp4 cs
  | c :: cs => c :: stripMp4 cs
  | [] => []

/-- Characters of the product title built at src/main.py line 212:
the fixed Japanese marker followed by the filename with every .mp4
occurrence removed. -/
def titleChars (file_name : String) : List Char :=
  "縦型動画: ".data ++ stripMp4 file_name.data

/-- Product title derived from the triggering filename
(src/main.py line 212). -/
def derive_title (file_name : String) : String :=
  String.mk (titleChars file_name)

/-- One step of the tag-collection loop of analyze_video_with_ai
(src/main.py lines 157-160): append a description unless already present. -/
def addTag (tags : List String) (d : String) : List String :=
  if d ∈ tags then tags else tags ++ [d]

/-- The tag-collection loop of analyze_video_with_ai (src/main.py
lines 157-160): first-occurrence-order deduplication of the label
descriptions. -/
def collectTags (labels : List String) : List String :=
  labels.foldl addTag []

/-- analyze_video_with_ai (src/main.py lines 150-166).  The interaction
with the Video Intelligence API is abstracted: the argument is either the
sequence of raw label descriptions the service returned, or an error
standing for any exception (failure or timeout).  On success the code
deduplicates in encounter order and keeps the first ten tags; on any
exception it returns the fixed fallback tag list. -/
def analyze_video_with_ai (res : Except Unit (List String)) : List String :=
  match res with
  | Except.ok labels => (collectTags labels).take 10
  | Except.error _ => ["動画", "コンテンツ"]

/-- The ffmpeg filter used by add_watermark (src/main.py line 142):
scale the watermark to 100x100 and overlay it 10px from the
bottom-right corner on both axes. -/
def WATERMARK_FILTER : String :=
  "[1:v]scale=100:100[wm];[0:v][wm]overlay=W-w-10:H-h-10"

/-- The ffmpeg command list built by add_watermark
(src/main.py lines 141-142). -/
def ffmpeg_cmd (input_path output_path : String) : List String :=
  ["ffmpeg", "-i", input_path, "-i", "watermark.png", "-filter_complex",
   WATERMARK_FILTER, "-c:a", "copy", output_path, "-y"]

/-- The fixed Shopify host suffix checked and appended by
ShopifyAPIClient.__init__ (src/main.py line 82). -/
def shopSuffix : String := ".myshopify.com"

/-- Python str.replace of the substring https:// by the empty string:
delete every non-overlapping occurrence, scanning left to right
(src/main.py line 81). -/
def stripHttps : List Char → List Char
  | 'h' :: 't' :: 't' :: 'p' :: 's' :: ':' :: '/' :: '/' :: cs => stripHttps cs
  | c :: cs => c :: stripHttps cs
  | [] => []

/-- Python str.replace of the substring http:// by the empty string
(src/main.py line 81), applied after stripHttps. -/
def stripHttp : List Char → List Char
  | 'h' :: 't' :: 't' :: 'p' :: ':' :: '/' :: '/' :: cs => stripHttp cs
  | c :: cs => c :: stripHttp cs
  | [] => []

/-- Shop-domain normalization performed by ShopifyAPIClient.__init__
(src/main.py lines 81-82): remove every occurrence of https:// then of
http:// anywhere in the string, then append the .myshopify.com suffix
unless the result already ends with it. -/
def normalize_shop_domain (shop_domain : String) : String :=
  let d := stripHttp (stripHttps shop_domain.data)
  if shopSuffix.data.isSuffixOf d then String.mk d
  else String.mk (d ++ shopSuffix.data)

/-- Removal of one LEADING scheme only.  This follows the words of the
claim (strip a leading https:// or http://), to be compared with the
source's normalize_shop_domain. -/
def stripLeadingScheme : List Char → List Char
  | 'h' :: 't' :: 't' :: 'p' :: 's' :: ':' :: '/' :: '/' :: cs => cs
  | 'h' :: 't' :: 't' :: 'p' :: ':' :: '/' :: '/' :: cs => cs
  | l => l

/-- Shop-domain normalization as the claim words it: strip only a leading
scheme, then append the suffix when missing.  Spec-side definition for the
refinement comparison with normalize_shop_domain. -/
def normalize_shop_domain_spec (shop_domain : String) : String :=
  let d := stripLeadingScheme shop_domain.data
  if shopSuffix.data.isSuffixOf d then String.mk d
  else String.mk (d ++ shopSuffix.data)

/-- Base URL built by ShopifyAPIClient.__init__ (src/main.py line 89). -/
def base_url (shop_domain : String) : String :=
  "https://" ++ normalize_shop_domain shop_domain ++ "/admin/api/2024-04"

/-- GCS public url of an uploaded blob, as returned by upload_to_gcs
(src/main.py line 175). -/
def publicUrl (bucket blob : String) : String :=
  "https://storage.googleapis.com/" ++ bucket ++ "/" ++ blob

/-- Local scratch path of the downloaded source video
(tempfile at src/main.py line 133; modelled by a fixed name). -/
def inputPath : String := "input.mp4"

/-- Local scratch path of the watermarked output
(tempfile at src/main.py line 191; modelled by a fixed name, distinct
from the input path as the two temp files coexist). -/
def outputPath : String := "output_watermarked.mp4"

/-- The JSON trigger payload: request.get_json with the two fields read at
src/main.py lines 182-183; a missing field is None here and raises
KeyError there. -/
structure TriggerPayload where
  bucket : Option String
  name : Option String
deriving DecidableEq

/-- Outcome of each external call a run can make, fixed before the run:
whether the GCS download, the ffmpeg invocation and the GCS upload
succeed, the label-service result (raw descriptions or an exception),
whether the Secret Manager fetch and client construction succeed, and the
Shopify create result (a product id on HTTP 201, none on any other status
or exception, which create_product maps to None at src/main.py
lines 117-127). -/
structure Env where
  downloadOk : Bool
  watermarkOk : Bool
  uploadOk : Bool
  labelResult : Except Unit (List String)
  tokenOk : Bool
  createOk : Option Nat

/-- External side effects attempted by a run, in order. -/
inductive Effect where
  | download (bucket name : String)
  | runFfmpeg (input output : String)
  | upload (bucket blob : String)
  | labelCall (uri : String)
  | tokenFetch
  | createCall (title : String)
  | unlink (path : String)
deriving DecidableEq

/-- Terminal outcome of one process_video run, mirroring the four bodies
the endpoint can return (src/main.py lines 193, 233-238, 241-246, 250-255,
263). -/
inductive Outcome where
  | success (processedUrl : String) (aiTags : List String) (productId : Nat)
  | watermarkError
  | shopifyFailed (processedUrl : String) (aiTags : List String) (errMsg : String)
  | requestError (msg : String)
deriving DecidableEq

/-- The status field of the JSON body returned to the caller:
success bodies carry status success, the two Shopify-failure bodies carry
status partial_success, and the error bodies have no status field. -/
def statusField : Outcome → Option String
  | Outcome.success _ _ _ => some "success"
  | Outcome.shopifyFailed _ _ _ => some "partial_success"
  | Outcome.watermarkError => none
  | Outcome.requestError _ => none

/-- HTTP status code of each outcome: jsonify defaults to 200 on the
success body; every other body is returned with 500. -/
def httpStatus : Outcome → Nat
  | Outcome.success _ _ _ => 200
  | Outcome.watermarkError => 500
  | Outcome.shopifyFailed _ _ _ => 500
  | Outcome.requestError _ => 500

/-- process_video (src/main.py lines 177-263).  Reads the two payload
fields (KeyError on a missing one is caught by the outer handler at
line 261 and returned as a 500 error body), then runs download, watermark,
upload, labelling, token fetch and product creation in order, returning
the outcome together with the trace of attempted external effects.  The
os.unlink cleanup at lines 258-259 stands after the return statements of
every branch of the function body, so no branch ever reaches it and no
unlink effect occurs in any trace. -/
def process_video (env : Env) (p : TriggerPayload) : Outcome × List Effect :=
  match p.bucket with
  | none => (Outcome.requestError "KeyError: bucket", [])
  | some bucket =>
    match p.name with
    | none => (Outcome.requestError "KeyError: name", [])
    | some name =>
      if env.downloadOk = false then
        (Outcome.requestError "download failed", [Effect.download bucket name])
      else if env.watermarkOk = false then
        (Outcome.watermarkError,
         [Effect.download bucket name, Effect.runFfmpeg inputPath outputPath])
      else if env.uploadOk = false then
        (Outcome.requestError "upload failed",
         [Effect.download bucket name, Effect.runFfmpeg inputPath outputPath,
          Effect.upload BUCKET_PROCESSED ("processed_" ++ name)])
      else
        let processedUrl := publicUrl BUCKET_PROCESSED ("processed_" ++ name)
        let aiTags := analyze_video_with_ai env.labelResult
        let preTrace : List Effect :=
          [Effect.download bucket name, Effect.runFfmpeg inputPath outputPath,
           Effect.upload BUCKET_PROCESSED ("processed_" ++ name),
           Effect.labelCall ("gs://" ++ bucket ++ "/" ++ name), Effect.tokenFetch]
        if env.tokenOk = false then
          (Outcome.shopifyFailed processedUrl aiTags "Shopify integration failed",
           preTrace)
        else
          match env.createOk with
          | some pid =>
            (Outcome.success processedUrl aiTags pid,
             preTrace ++ [Effect.createCall (derive_title name)])
          | none =>
            (Outcome.shopifyFailed processedUrl aiTags
               "Shopify product creation failed",
             preTrace ++ [Effect.createCall (derive_title name)])

/-- Recognizer of create-call effects. -/
def isCreateCall : Effect → Bool
  | Effect.createCall _ => true
  | _ => false

/-- Number of Shopify create calls in a trace. -/
def countCreates (tr : List Effect) : Nat :=
  (tr.filter isCreateCall).length

/-- Recognizer of unlink (scratch-file deletion) effects. -/
def isUnlink : Effect → Bool
  | Effect.unlink _ => true
  | _ => false

/-- An outcome is a terminal publishing outcome (success or
partial_success), as opposed to an aborted run. -/
def isTerminalOk : Outcome → Bool
  | Outcome.success _ _ _ => true
  | Outcome.shopifyFailed _ _ _ => true
  | _ => false

/-- The tag list carried by a terminal outcome body. -/
def tagsOf : Outcome → List String
  | Outcome.success _ tags _ => tags
  | Outcome.shopifyFailed _ tags _ => tags
  | _ => []

/-! ### Helper lemmas about the tag-collection loop -/

/-- The tag-collection fold preserves freedom from duplicates. -/
theorem foldl_addTag_nodup (ls : List String) :
    ∀ acc : List String, acc.Nodup → (ls.foldl addTag acc).Nodup := by
  induction ls with
  | nil => intro acc h; exact h
  | cons d ls ih =>
    intro acc h
    rw [List.foldl_cons]
    by_cases hd : d ∈ acc
    · have e : addTag acc d = acc := by simp [addTag, hd]
      rw [e]
      exact ih acc h
    · have e : addTag acc d = acc ++ [d] := by simp [addTag, hd]
      have h2 : (acc ++ [d]).Nodup := by
        simp [List.nodup_append, h, hd]
      rw [e]
      exact ih (acc ++ [d]) h2

/-- The tag-collection fold only ever appends, and what it appends is a
subsequence of the scanned labels. -/
theorem foldl_addTag_extends (ls : List String) :
    ∀ acc : List String,
      ∃ t, ls.foldl addTag acc = acc ++ t ∧ List.Sublist t ls := by
  induction ls with
  | nil => intro acc; exact ⟨[], by simp, List.Sublist.slnil⟩
  | cons d ls ih =>
    intro acc
    rw [List.foldl_cons]
    by_cases hd : d ∈ acc
    · have e : addTag acc d = acc := by simp [addTag, hd]
      rw [e]
      obtain ⟨t, ht, hs⟩ := ih acc
      exact ⟨t, ht, List.Sublist.cons d hs⟩
    · have e : addTag acc d = acc ++ [d] := by simp [addTag, hd]
      rw [e]
      obtain ⟨t, ht, hs⟩ := ih (acc ++ [d])
      refine ⟨d :: t, ?_, List.Sublist.cons₂ d hs⟩
      rw [ht, List.append_assoc]
      rfl

/-- The deduplicated tag list contains no duplicates. -/
theorem collectTags_nodup (labels : List String) : (collectTags labels).Nodup :=
  foldl_addTag_nodup labels [] List.nodup_nil

/-- The deduplicated tag list is a subsequence of the raw labels. -/
theorem collectTags_sublist (labels : List String) :
    List.Sublist (collectTags labels) labels := by
  obtain ⟨t, ht, hs⟩ := foldl_addTag_extends labels []
  unfold collectTags
  rw [ht]
  simpa using hs

/-! ### Claim C3 -/

/-- Claim C3 counterexample: tag extraction is NOT sorted and NOT
independent of input order.  On the raw labels dog, cat the code returns
them in encounter order, and reversing the input changes the output. -/
theorem C3_counterexample :
    analyze_video_with_ai (Except.ok ["dog", "cat"]) = ["dog", "cat"] ∧
    decide (analyze_video_with_ai (Except.ok ["dog", "cat"]) =
      analyze_video_with_ai (Except.ok ["cat", "dog"])) = false := by
  exact ⟨by decide, by decide⟩

/-- Claim C3 (amended): tag extraction deduplicates the raw label
descriptions keeping the first occurrence of each, in input order (capped
at ten); the output has no duplicates and is a subsequence of the input,
and the spec's example input cat, dog, cat does yield cat, dog — but the
output is in encounter order, not sorted, hence depends on input order. -/
theorem C3_amended :
    (∀ ls : List String,
      (analyze_video_with_ai (Except.ok ls)).Nodup ∧
      List.Sublist (analyze_video_with_ai (Except.ok ls)) ls) ∧
    analyze_video_with_ai (Except.ok ["cat", "dog", "cat"]) = ["cat", "dog"] := by
  constructor
  · intro ls
    constructor
    · exact (List.take_sublist 10 (collectTags ls)).nodup (collectTags_nodup ls)
    · exact (List.take_sublist 10 (collectTags ls)).trans (collectTags_sublist ls)
  · decide

/-! ### Claim C4 -/

/-- Claim C4 counterexample: title derivation is not injective.  The
distinct filenames clip1.mp4 and clip1 derive the same title, because the
code deletes every occurrence of .mp4 from the filename. -/
theorem C4_counterexample :
    derive_title "clip1.mp4" = derive_title "clip1" ∧
    decide (("clip1.mp4" : String) = "clip1") = false := by
  exact ⟨by decide, by decide⟩

/-- Claim C4 (amended): title derivation is a pure function of the
filename — two filenames derive the same title exactly when they agree
after deleting every occurrence of .mp4 — so equal filenames always give
equal titles, but distinct filenames differing only in .mp4 occurrences
collide. -/
theorem C4_amended (f g : String) :
    derive_title f = derive_title g ↔ stripMp4 f.data = stripMp4 g.data := by
  unfold derive_title titleChars
  constructor
  · intro h
    have hd : "縦型動画: ".data ++ stripMp4 f.data =
        "縦型動画: ".data ++ stripMp4 g.data := congrArg String.data h
    exact List.append_cancel_left hd
  · intro h
    rw [h]

/-! ### Claim C9 -/

/-- Claim C9 (confirmed): the tag list returned on a successful
label-detection result never has more than ten entries, and distinct
descriptions past the tenth are dropped: eleven distinct labels yield
exactly the first ten. -/
theorem C9_tag_cap :
    (∀ ls : List String, (analyze_video_with_ai (Except.ok ls)).length ≤ 10) ∧
    analyze_video_with_ai (Except.ok
        ["l00", "l01", "l02", "l03", "l04", "l05", "l06", "l07", "l08", "l09",
         "l10"]) =
      ["l00", "l01", "l02", "l03", "l04", "l05", "l06", "l07", "l08", "l09"] := by
  constructor
  · intro ls
    exact List.length_take_le 10 (collectTags ls)
  · decide

/-! ### Claim C10 -/

/-- Claim C10 counterexample: the constructor does not strip only a
LEADING scheme.  Python str.replace deletes the scheme substring anywhere
in the string: on the domain shophttps://x the code produces
shopx.myshopify.com, while the claimed leading-strip normalization would
keep the embedded scheme. -/
theorem C10_counterexample :
    normalize_shop_domain "shophttps://x" = "shopx.myshopify.com" ∧
    normalize_shop_domain_spec "shophttps://x" = "shophttps://x.myshopify.com" ∧
    decide (normalize_shop_domain "shophttps://x" =
      normalize_shop_domain_spec "shophttps://x") = false := by
  exact ⟨by decide, by decide, by decide⟩

/-- Claim C10 (amended): the constructor removes every occurrence of
https:// and then of http:// anywhere in the shop domain (not only a
leading one) and appends .myshopify.com when the result does not already
end with that suffix — so the normalized domain, and hence the host of the
request base URL, always ends with .myshopify.com. -/
theorem C10_amended (s : String) :
    shopSuffix.data.isSuffixOf (normalize_shop_domain s).data = true := by
  unfold normalize_shop_domain
  by_cases h :
      shopSuffix.data.isSuffixOf (stripHttp (stripHttps s.data)) = true
  · simp [h]
  · simp only [Bool.not_eq_true] at h
    simp only [h, Bool.false_eq_true, if_false]
    simp [List.isSuffixOf_iff_suffix]

/-! ### Claim C7 -/

/-- Claim C7 counterexample: the ffmpeg command passes no explicit
quality option at all — no constant-rate-factor, fixed-quantizer, video
bitrate or video codec flag appears — so the re-encode is not performed
with a constant-quality setting of the command; it relies entirely on
encoder defaults. -/
theorem C7_counterexample :
    decide ("-crf" ∈ ffmpeg_cmd inputPath outputPath) = false ∧
    decide ("-qp" ∈ ffmpeg_cmd inputPath outputPath) = false ∧
    decide ("-b:v" ∈ ffmpeg_cmd inputPath outputPath) = false ∧
    decide ("-c:v" ∈ ffmpeg_cmd inputPath outputPath) = false := by
  exact ⟨by decide, by decide, by decide, by decide⟩

/-- Claim C7 (amended): the watermark command overlays the watermark image
(scaled to 100x100) anchored 10px from the bottom-right corner on both
axes, copies the audio stream unchanged, and writes to the separately
provided output path, distinct from the input path — but the video stream
is re-encoded with the encoder's default settings: the command passes no
explicit quality option. -/
theorem C7_amended :
    (∀ input output : String,
      WATERMARK_FILTER ∈ ffmpeg_cmd input output ∧
      (∃ pre post,
        ffmpeg_cmd input output = pre ++ ["-c:a", "copy"] ++ post) ∧
      output ∈ ffmpeg_cmd input output) ∧
    decide ("-crf" ∈ ffmpeg_cmd inputPath outputPath) = false ∧
    decide (inputPath = outputPath) = false := by
  refine ⟨?_, by decide, by decide⟩
  intro input output
  refine ⟨?_, ?_, ?_⟩
  · simp [ffmpeg_cmd]
  · exact ⟨["ffmpeg", "-i", input, "-i", "watermark.png", "-filter_complex",
      WATERMARK_FILTER], [output, "-y"], rfl⟩
  · simp [ffmpeg_cmd]

/-! ### Claim C6 -/

/-- Claim C6 (code bug): no exit path of process_video deletes the scratch
files.  The os.unlink cleanup at src/main.py lines 258-259 stands after
the return statements of every branch, so it is unreachable: no trace of
any run contains an unlink effect, and in particular a fully successful
run for clip1.mp4 ends after the create call with both scratch files left
behind. -/
theorem C6_no_cleanup :
    (∀ (env : Env) (p : TriggerPayload),
      (process_video env p).2.filter isUnlink = []) ∧
    (process_video ⟨true, true, true, Except.ok ["cat"], true, some 42⟩
        ⟨some "originals", some "clip1.mp4"⟩).2 =
      [Effect.download "originals" "clip1.mp4",
       Effect.runFfmpeg inputPath outputPath,
       Effect.upload BUCKET_PROCESSED "processed_clip1.mp4",
       Effect.labelCall "gs://originals/clip1.mp4",
       Effect.tokenFetch,
       Effect.createCall "縦型動画: clip1"] := by
  constructor
  · intro env p
    obtain ⟨ob, onam⟩ := p
    obtain ⟨d, w, u, lr, t, c⟩ := env
    cases ob <;> cases onam <;> cases d <;> cases w <;> cases u <;>
      cases t <;> cases c <;>
      simp [process_video, isUnlink, List.filter]
  · decide

/-! ### Claim C5 -/

/-- Claim C5 counterexample: the malformed trigger with bucket originals
and no name field is rejected before any pipeline work (empty effect
trace), but with HTTP status 500 — a server error, not the claimed
client-error (4xx) response.  The KeyError raised at src/main.py line 183
is caught by the outer handler at lines 261-263, which returns 500. -/
theorem C5_counterexample :
    httpStatus (process_video ⟨true, true, true, Except.ok ["cat"], true, some 1⟩
        ⟨some "originals", none⟩).1 = 500 ∧
    decide (400 ≤ httpStatus
        (process_video ⟨true, true, true, Except.ok ["cat"], true, some 1⟩
          ⟨some "originals", none⟩).1 ∧
      httpStatus (process_video ⟨true, true, true, Except.ok ["cat"], true, some 1⟩
          ⟨some "originals", none⟩).1 < 500) = false ∧
    (process_video ⟨true, true, true, Except.ok ["cat"], true, some 1⟩
        ⟨some "originals", none⟩).2 = [] := by
  exact ⟨by decide, by decide, by decide⟩

/-- Claim C5 (amended): a trigger payload missing the bucket field or the
name field is rejected before any pipeline work — no download, transform,
label or create effect is attempted — but the response is a server-error
500 (the KeyError falls into the generic exception handler), not a 4xx
client error. -/
theorem C5_amended (env : Env) (p : TriggerPayload)
    (h : p.bucket = none ∨ p.name = none) :
    httpStatus (process_video env p).1 = 500 ∧ (process_video env p).2 = [] := by
  obtain ⟨ob, onam⟩ := p
  rcases h with h | h
  · simp only at h
    subst h
    simp [process_video, httpStatus]
  · simp only at h
    subst h
    cases ob <;> simp [process_video, httpStatus]

/-- Witness for claim C5: the amended theorem applied to the concrete
malformed trigger of the spec scenario. -/
theorem C5_witness :
    httpStatus (process_video ⟨true, true, true, Except.ok ["dog"], true, some 2⟩
        ⟨some "originals", none⟩).1 = 500 ∧
    (process_video ⟨true, true, true, Except.ok ["dog"], true, some 2⟩
        ⟨some "originals", none⟩).2 = [] :=
  C5_amended ⟨true, true, true, Except.ok ["dog"], true, some 2⟩
    ⟨some "originals", none⟩ (Or.inr rfl)

/-! ### Claim C1 -/

/-- Claim C1 counterexample: replaying the same trigger after a first
SUCCESS run does make a second create call.  The first run succeeds
(status success), yet the two runs together contain two create-call
effects where the claim allows exactly one. -/
theorem C1_counterexample :
    statusField (process_video ⟨true, true, true, Except.ok ["cat"], true, some 42⟩
        ⟨some "originals", some "clip1.mp4"⟩).1 = some "success" ∧
    countCreates
        ((process_video ⟨true, true, true, Except.ok ["cat"], true, some 42⟩
            ⟨some "originals", some "clip1.mp4"⟩).2 ++
          (process_video ⟨true, true, true, Except.ok ["cat"], true, some 42⟩
            ⟨some "originals", some "clip1.mp4"⟩).2) = 2 := by
  exact ⟨by decide, by decide⟩

/-- Claim C1 (amended): process_video performs no idempotency check — it
never consults prior state — so every run whose payload is well formed and
whose download, watermark, upload and token stages succeed performs its
own create call, and a trigger replayed after the first run's SUCCESS
performs a second create call: the two runs together make exactly two. -/
theorem C1_amended (env : Env) (p : TriggerPayload) (b n : String)
    (hb : p.bucket = some b) (hn : p.name = some n)
    (hd : env.downloadOk = true) (hw : env.watermarkOk = true)
    (hu : env.uploadOk = true) (ht : env.tokenOk = true) :
    countCreates ((process_video env p).2 ++ (process_video env p).2) = 2 := by
  obtain ⟨d, w, u, lr, t, c⟩ := env
  obtain ⟨ob, onam⟩ := p
  simp only at hb hn hd hw hu ht
  subst hb hn hd hw hu ht
  cases c <;> simp [process_video, countCreates, isCreateCall, List.filter]

/-- Witness for claim C1: the amended theorem applied to a concrete happy
replay. -/
theorem C1_witness :
    countCreates
        ((process_video ⟨true, true, true, Except.ok ["cat"], true, some 7⟩
            ⟨some "originals", some "clip2.mp4"⟩).2 ++
          (process_video ⟨true, true, true, Except.ok ["cat"], true, some 7⟩
            ⟨some "originals", some "clip2.mp4"⟩).2) = 2 :=
  C1_amended ⟨true, true, true, Except.ok ["cat"], true, some 7⟩
    ⟨some "originals", some "clip2.mp4"⟩ "originals" "clip2.mp4"
    rfl rfl rfl rfl rfl rfl

/-! ### Claim C2 -/

/-- Claim C2 counterexample: a run in which the listing creation itself
fails (create_product returns None, everything before it succeeded) is
recorded partial_success with HTTP 500 — not FAILED as the claim states —
and there is no media-attachment stage at all in the code. -/
theorem C2_counterexample :
    statusField (process_video ⟨true, true, true, Except.ok ["cat"], true, none⟩
        ⟨some "originals", some "clip1.mp4"⟩).1 = some "partial_success" ∧
    httpStatus (process_video ⟨true, true, true, Except.ok ["cat"], true, none⟩
        ⟨some "originals", some "clip1.mp4"⟩).1 = 500 := by
  exact ⟨by decide, by decide⟩

/-- Claim C2 (amended): a run's outcome is recorded partial_success
exactly when the payload was well formed, download, watermark and upload
succeeded, and the Shopify step then failed — either the token fetch or
client construction raised, or the product creation returned no product.
There is no media-attachment stage, and a failed listing creation is
recorded partial_success (with HTTP 500), not FAILED. -/
theorem C2_amended (env : Env) (p : TriggerPayload) :
    statusField (process_video env p).1 = some "partial_success" ↔
      (p.bucket.isSome = true ∧ p.name.isSome = true ∧
       env.downloadOk = true ∧ env.watermarkOk = true ∧ env.uploadOk = true ∧
       (env.tokenOk = false ∨ env.createOk = none)) := by
  have hne : ("success" : String) ≠ "partial_success" := by decide
  obtain ⟨d, w, u, lr, t, c⟩ := env
  obtain ⟨ob, onam⟩ := p
  cases ob <;> cases onam <;> cases d <;> cases w <;> cases u <;>
    cases t <;> cases c <;>
    simp [process_video, statusField, hne]

/-! ### Claim C8 -/

/-- Claim C8 (confirmed): when the label-detection call fails or times out
(any exception in analyze_video_with_ai), tag extraction returns the fixed
fallback tag set and the pipeline is not aborted: provided the payload is
well formed and download, watermark and upload succeeded, the run still
reaches a terminal success or partial_success outcome carrying the
fallback tags — it is never failed solely because enrichment failed. -/
theorem C8_fallback (env : Env) (p : TriggerPayload) (b n : String)
    (hb : p.bucket = some b) (hn : p.name = some n)
    (hl : env.labelResult = Except.error ())
    (hd : env.downloadOk = true) (hw : env.watermarkOk = true)
    (hu : env.uploadOk = true) :
    isTerminalOk (process_video env p).1 = true ∧
    tagsOf (process_video env p).1 = ["動画", "コンテンツ"] := by
  obtain ⟨d, w, u, lr, t, c⟩ := env
  obtain ⟨ob, onam⟩ := p
  simp only at hb hn hl hd hw hu
  subst hb hn hl hd hw hu
  cases t <;> cases c <;>
    simp [process_video, analyze_video_with_ai, isTerminalOk, tagsOf]

/-- Witness for claim C8: the theorem applied to a concrete run whose
label service call failed. -/
theorem C8_witness :
    isTerminalOk (process_video
        ⟨true, true, true, Except.error (), true, some 9⟩
        ⟨some "originals", some "clip3.mp4"⟩).1 = true ∧
    tagsOf (process_video
        ⟨true, true, true, Except.error (), true, some 9⟩
        ⟨some "originals", some "clip3.mp4"⟩).1 = ["動画", "コンテンツ"] :=
  C8_fallback ⟨true, true, true, Except.error (), true, some 9⟩
    ⟨some "originals", some "clip3.mp4"⟩ "originals" "clip3.mp4"
    rfl rfl rfl rfl rfl rfl
